import Mathlib

/-!
Verification of the UrbanHeatmapShiny dashboard logic (src/app.py).

The app is a thin presentation layer over two static datasets.  The
logic-bearing parts embedded here are:

* `get_color` — the value-to-color bucketer (app.py lines 30-50);
* `geojson_colored` — the colored-geometry derivation (app.py lines
  193-214), including the in-place mutation of a deep copy, modelled by
  an explicit heap of GeoJSON objects in `geojson_colored_run`;
* `selected_country_data` — the pandas row filter (app.py lines 334-338),
  modelled by the boolean-mask selection pandas performs;
* `scatterchart` — the chart data preparation (app.py lines 340-363);
  Python exceptions (an IndexError when the labelling loop indexes an
  empty array) are modelled by `Option`, `none` meaning the code raises;
* `available_countries` and the two dropdowns of `app_ui` with their
  default selections (app.py lines 15, 53-81).

Numeric ΔT values are embedded as rationals (`ℚ`); the source only ever
compares them with `>` and `==`, so order is all that matters.  A JSON
property value is `PropVal`: `null`, a number, or a string.  Python dict
lookup `d.get(k, default)` is `dictGet`, and dict assignment
`d[k] = v` (overwrite in place, else append, preserving insertion order)
is `dictSet`.
-/

/-- A JSON property value as it appears in the GeoJSON feature
properties: `null`, a number, or a string. -/
inductive PropVal where
  | null : PropVal
  | num : ℚ → PropVal
  | str : String → PropVal
deriving DecidableEq, Repr

/-- Python `d.get(k, default)` on an insertion-ordered dict modelled as
an association list: value of the first matching key, else the default. -/
def dictGet : List (String × PropVal) → String → PropVal → PropVal
  | [], _, d => d
  | (k0, v0) :: rest, k, d => if k0 = k then v0 else dictGet rest k d

/-- Python `d[k] = v` on an insertion-ordered dict: overwrite the value
of an existing key in place, otherwise append the new pair at the end. -/
def dictSet : List (String × PropVal) → String → PropVal → List (String × PropVal)
  | [], k, v => [(k, v)]
  | (k0, v0) :: rest, k, v =>
    if k0 = k then (k0, v) :: rest else (k0, v0) :: dictSet rest k v

/-- Whether the dict has an entry for key `k`. -/
def dictHasKey (props : List (String × PropVal)) (k : String) : Bool :=
  props.any (fun p => p.1 = k)

/-- The coloring function `get_color` of app.py lines 30-50: `None`
maps to the fallback gray, otherwise the ordered threshold chain is
evaluated with first match winning. -/
def get_color : Option ℚ → String
  | none => "#cccccc"
  | some value =>
    if value > 9 then "#b35806"
    else if value > 6 then "#e08214"
    else if value > 3 then "#fdb863"
    else if value > 0 then "#fee0b6"
    else if value = 0 then "#f7f7f7"
    else if value > -3 then "#d8daeb"
    else if value > -6 then "#b2abd2"
    else if value > -9 then "#8073ac"
    else "#542788"

/-- C2: the bucketer sends an absent value to "#cccccc"; on numbers the
nine ordered threshold rows partition the number line with no gap or
overlap — each color is returned exactly on its half-open bucket — and
each boundary value lands on its stated inclusive side: 0 on "#f7f7f7",
9 on "#e08214", -9 on "#542788". -/
theorem get_color_buckets_partition :
    get_color none = "#cccccc" ∧
    get_color (some 0) = "#f7f7f7" ∧
    get_color (some 9) = "#e08214" ∧
    get_color (some (-9)) = "#542788" ∧
    ∀ q : ℚ,
      (get_color (some q) = "#b35806" ↔ 9 < q) ∧
      (get_color (some q) = "#e08214" ↔ 6 < q ∧ q ≤ 9) ∧
      (get_color (some q) = "#fdb863" ↔ 3 < q ∧ q ≤ 6) ∧
      (get_color (some q) = "#fee0b6" ↔ 0 < q ∧ q ≤ 3) ∧
      (get_color (some q) = "#f7f7f7" ↔ q = 0) ∧
      (get_color (some q) = "#d8daeb" ↔ -3 < q ∧ q < 0) ∧
      (get_color (some q) = "#b2abd2" ↔ -6 < q ∧ q ≤ -3) ∧
      (get_color (some q) = "#8073ac" ↔ -9 < q ∧ q ≤ -6) ∧
      (get_color (some q) = "#542788" ↔ q ≤ -9) := by
  refine ⟨rfl, by norm_num [get_color], by norm_num [get_color], by norm_num [get_color], ?_⟩
  intro q
  simp only [get_color]
  split_ifs with h1 h2 h3 h4 h5 h6 h7 h8 <;>
    refine ⟨?_, ?_, ?_, ?_, ?_, ?_, ?_, ?_, ?_⟩ <;>
    constructor <;>
    intro h <;>
    simp_all <;>
    first
      | linarith
      | (constructor <;> linarith)
      | (exfalso; linarith)
      | (rcases lt_or_gt_of_ne h5 with h9 | h9 <;>
          first
            | linarith
            | (constructor <;> linarith))

/-- A GeoJSON feature: an opaque geometry plus an insertion-ordered
properties dict (region name, the eight ΔT attributes, and after
derivation the added color). -/
structure Feature where
  geometry : String
  properties : List (String × PropVal)
deriving DecidableEq, Repr

/-- A GeoJSON feature collection. -/
structure GeoJson where
  features : List Feature
deriving DecidableEq, Repr

/-- The value the source passes to `get_color` for a feature (app.py
lines 210-211): `feature["properties"].get(selected_var, 0)` with `None`
then replaced by `0`.  So a missing key and a stored null both become 0.
The eight attribute values are numeric or null in the datasets; a
string value never reaches this point in the source. -/
def bucketArg (f : Feature) (selected_var : String) : ℚ :=
  match dictGet f.properties selected_var (PropVal.num 0) with
  | PropVal.null => 0
  | PropVal.num q => q
  | PropVal.str _ => 0

/-- The loop body of `geojson_colored` (app.py lines 209-212): compute
the color for the selected variable and store it under key "color" in
the feature's properties dict. -/
def colorFeature (selected_var : String) (f : Feature) : Feature :=
  { f with
    properties :=
      dictSet f.properties "color" (PropVal.str (get_color (some (bucketArg f selected_var)))) }

/-- The list of present (non-null) values of the selected variable
(app.py lines 198-202).  The source computes `min` and `max` of this
list but never uses them; the output does not depend on it. -/
def presentValues (g : GeoJson) (selected_var : String) : List ℚ :=
  g.features.filterMap (fun f =>
    match dictGet f.properties selected_var PropVal.null with
    | PropVal.num q => some q
    | _ => none)

/-- The value of `geojson_colored` (app.py lines 193-214) as a function
of the deep-copied collection: every feature gets a color property. -/
def geojson_colored (g : GeoJson) (selected_var : String) : GeoJson :=
  ⟨g.features.map (colorFeature selected_var)⟩

/-- A heap of GeoJSON objects, to make the mutation in `geojson_colored`
explicit: the static `original_geojson` lives at some index, and the
derivation deep-copies it before mutating. -/
abbrev Heap := List GeoJson

/-- `json.loads(json.dumps(g))` (app.py line 195): a deep copy, the
identity on the value. -/
def json_round_trip (g : GeoJson) : GeoJson := g

/-- Deep-copying the object at index `i` allocates a fresh object at the
end of the heap and returns its index. -/
def deep_copy_alloc (h : Heap) (i : Nat) : Heap × Nat :=
  (h ++ [json_round_trip (h.getD i ⟨[]⟩)], h.length)

/-- One run of the reactive calc `geojson_colored` (app.py lines
193-214) against the heap: deep-copy the original at index `i`, mutate
every feature of the copy in place by attaching its color, and return
the updated heap together with the serialized copy. -/
def geojson_colored_run (h : Heap) (i : Nat) (selected_var : String) : Heap × GeoJson :=
  let copied := deep_copy_alloc h i
  let h2 := copied.1.set copied.2 (geojson_colored (copied.1.getD copied.2 ⟨[]⟩) selected_var)
  (h2, h2.getD copied.2 ⟨[]⟩)

theorem dictGet_dictSet_same (props : List (String × PropVal)) (k : String) (v d : PropVal) :
    dictGet (dictSet props k v) k d = v := by
  induction props with
  | nil => simp [dictGet, dictSet]
  | cons p rest ih =>
    obtain ⟨k0, v0⟩ := p
    by_cases hk : k0 = k <;> simp [dictGet, dictSet, hk, ih]

theorem dictGet_dictSet_other (props : List (String × PropVal)) (k k' : String)
    (hne : k' ≠ k) (v d : PropVal) :
    dictGet (dictSet props k v) k' d = dictGet props k' d := by
  induction props with
  | nil => simp [dictGet, dictSet, Ne.symm hne]
  | cons p rest ih =>
    obtain ⟨k0, v0⟩ := p
    by_cases hk : k0 = k
    · subst hk
      simp [dictGet, dictSet, Ne.symm hne]
    · by_cases hk' : k0 = k' <;> simp [dictGet, dictSet, hk, hk', hne, ih]

theorem dictHasKey_dictSet (props : List (String × PropVal)) (k : String) (v : PropVal) :
    dictHasKey (dictSet props k v) k = true := by
  induction props with
  | nil => simp [dictHasKey, dictSet]
  | cons p rest ih =>
    obtain ⟨k0, v0⟩ := p
    by_cases hk : k0 = k <;> simp_all [dictHasKey, dictSet, hk]

/-- A sample region whose `DeltaT_Summer_Night_mean` value is stored as
null, as in the GeoJSON for regions with no data. -/
def nullValueRegion : Feature :=
  { geometry := "geometry0",
    properties :=
      [("UC_NM_MN", PropVal.str "Testville"),
       ("DeltaT_Summer_Night_mean", PropVal.null)] }

/-- C1 is refuted on the code: a region whose selected-variable value is
null is colored "#f7f7f7" — the bucket of exactly 0 — and not the
fallback "#cccccc".  `geojson_colored` replaces a missing or null value
by 0 before calling `get_color` (app.py lines 210-211:
`.get(selected_var, 0)` and `val if val is not None else 0`), so the
fallback branch of `get_color` is unreachable from the derivation. -/
theorem geojson_colored_null_region_not_fallback :
    (geojson_colored ⟨[nullValueRegion]⟩ "DeltaT_Summer_Night_mean").features.map
        (fun f => dictGet f.properties "color" (PropVal.str "")) =
      [PropVal.str "#f7f7f7"] ∧
    "#f7f7f7" ≠ "#cccccc" := by
  constructor
  · rfl
  · decide

/-- C5: the derivation output has the same cardinality and order as its
static input — feature `i` of the output is exactly the colored copy of
feature `i` of the input, so every source region appears exactly once
and in order — and every output feature carries a color key. -/
theorem geojson_colored_total_order_preserving (g : GeoJson) (v : String) :
    (geojson_colored g v).features.length = g.features.length ∧
    (∀ i : Nat,
      (geojson_colored g v).features[i]? = (g.features[i]?).map (colorFeature v)) ∧
    ((geojson_colored g v).features.all
      (fun f => dictHasKey f.properties "color")) = true := by
  refine ⟨by simp [geojson_colored], fun i => by simp [geojson_colored], ?_⟩
  simp only [geojson_colored, List.all_eq_true, List.mem_map]
  rintro f ⟨f0, _, rfl⟩
  exact dictHasKey_dictSet f0.properties "color" _

/-- C10: a derived feature differs from its source feature only in the
added color property: the geometry is unchanged, the stored color is the
bucketed color of the selected value, and dict lookup at every key other
than "color" (region name, all eight ΔT attributes, null or not) is
unchanged. -/
theorem colorFeature_changes_only_color (v : String) (f : Feature) :
    (colorFeature v f).geometry = f.geometry ∧
    dictGet (colorFeature v f).properties "color" (PropVal.str "") =
      PropVal.str (get_color (some (bucketArg f v))) ∧
    ∀ k, k ≠ "color" → ∀ d,
      dictGet (colorFeature v f).properties k d = dictGet f.properties k d := by
  refine ⟨rfl, dictGet_dictSet_same f.properties "color" _ _, fun k hk d => ?_⟩
  exact dictGet_dictSet_other f.properties "color" k hk _ d

/-- Witness for C10 at a concrete feature and key: the region-name entry
of `nullValueRegion` is untouched by the derivation. -/
theorem colorFeature_changes_only_color_witness :
    ("UC_NM_MN" : String) ≠ "color" ∧
    dictGet (colorFeature "DeltaT_Summer_Night_mean" nullValueRegion).properties
        "UC_NM_MN" PropVal.null =
      dictGet nullValueRegion.properties "UC_NM_MN" PropVal.null :=
  ⟨by decide,
   (colorFeature_changes_only_color "DeltaT_Summer_Night_mean" nullValueRegion).2.2
     "UC_NM_MN" (by decide) PropVal.null⟩

theorem heap_getD_append_left (h : Heap) (x : GeoJson) (i : Nat) (hi : i < h.length) :
    (h ++ [x]).getD i ⟨[]⟩ = h.getD i ⟨[]⟩ := by
  simp [List.getD, List.getElem?_append_left hi]

theorem heap_getD_append_last (h : Heap) (x : GeoJson) :
    (h ++ [x]).getD h.length ⟨[]⟩ = x := by
  simp [List.getD, List.getElem?_concat_length]

theorem heap_set_append_last (h : Heap) (x y : GeoJson) :
    (h ++ [x]).set h.length y = h ++ [y] := by
  rw [List.set_append_right _ _ (Nat.le_refl _)]
  simp

/-- Unfolding a run of the derivation: the heap gains the colored copy
at the end and the original entries are untouched. -/
theorem geojson_colored_run_eq (h : Heap) (i : Nat) (v : String) :
    geojson_colored_run h i v =
      (h ++ [geojson_colored (h.getD i ⟨[]⟩) v], geojson_colored (h.getD i ⟨[]⟩) v) := by
  simp only [geojson_colored_run, deep_copy_alloc, json_round_trip,
    heap_getD_append_last, heap_set_append_last]

/-- C4: the derivation is pure and non-mutating.  Running it twice over
the heap for the same original object and selected variable returns
identical outputs, and the static object at index `i` is unchanged after
each run (the derivation mutates only the freshly allocated deep
copy). -/
theorem geojson_colored_run_pure_frame (h : Heap) (i : Nat) (v : String)
    (hi : i < h.length) :
    (geojson_colored_run (geojson_colored_run h i v).1 i v).2 =
      (geojson_colored_run h i v).2 ∧
    (geojson_colored_run h i v).1.getD i ⟨[]⟩ = h.getD i ⟨[]⟩ ∧
    (geojson_colored_run (geojson_colored_run h i v).1 i v).1.getD i ⟨[]⟩ =
      h.getD i ⟨[]⟩ := by
  have hgetD : (h ++ [geojson_colored (h.getD i ⟨[]⟩) v]).getD i ⟨[]⟩ = h.getD i ⟨[]⟩ :=
    heap_getD_append_left h _ i hi
  have hlt : i < (h ++ [geojson_colored (h.getD i ⟨[]⟩) v]).length := by
    simp only [List.length_append]
    omega
  simp only [geojson_colored_run_eq, hgetD]
  refine ⟨trivial, trivial, ?_⟩
  rw [heap_getD_append_left _ _ i hlt, hgetD]

/-- A one-object heap holding the static GeoJSON. -/
def sampleHeap : Heap := [⟨[nullValueRegion]⟩]

/-- Witness for C4 at a concrete heap: running the derivation twice on
`sampleHeap` yields the same output both times and leaves the original
object intact. -/
theorem geojson_colored_run_pure_frame_witness :
    0 < sampleHeap.length ∧
    ((geojson_colored_run
        (geojson_colored_run sampleHeap 0 "DeltaT_Summer_Night_mean").1
        0 "DeltaT_Summer_Night_mean").2 =
      (geojson_colored_run sampleHeap 0 "DeltaT_Summer_Night_mean").2 ∧
    (geojson_colored_run sampleHeap 0 "DeltaT_Summer_Night_mean").1.getD 0 ⟨[]⟩ =
      sampleHeap.getD 0 ⟨[]⟩ ∧
    (geojson_colored_run
        (geojson_colored_run sampleHeap 0 "DeltaT_Summer_Night_mean").1
        0 "DeltaT_Summer_Night_mean").1.getD 0 ⟨[]⟩ =
      sampleHeap.getD 0 ⟨[]⟩) :=
  ⟨by decide,
   geojson_colored_run_pure_frame sampleHeap 0 "DeltaT_Summer_Night_mean" (by decide)⟩

/-- A row of the tabular dataset UCD_DeltaT.csv: the region-name column
`UC_NM_MN` (`none` models a NaN cell) and the eight seasonal ΔT mean
columns. -/
structure Row where
  UC_NM_MN : Option String
  DeltaT_Winter_Day_mean : ℚ
  DeltaT_Winter_Night_mean : ℚ
  DeltaT_Spring_Day_mean : ℚ
  DeltaT_Spring_Night_mean : ℚ
  DeltaT_Summer_Day_mean : ℚ
  DeltaT_Summer_Night_mean : ℚ
  DeltaT_Fall_Day_mean : ℚ
  DeltaT_Fall_Night_mean : ℚ
deriving DecidableEq, Repr

/-- The boolean mask `delta_df["UC_NM_MN"] == selected_country` (app.py
line 337): elementwise equality of the name column with the selected
name; a NaN cell compares unequal to every string. -/
def seriesEqMask (df : List Row) (selected_country : String) : List Bool :=
  df.map (fun r => decide (r.UC_NM_MN = some selected_country))

/-- `df[mask]`: keep the rows whose mask entry is `true`, in order. -/
def maskSelect : List Row → List Bool → List Row
  | [], _ => []
  | _ :: _, [] => []
  | r :: rs, b :: bs => if b then r :: maskSelect rs bs else maskSelect rs bs

/-- The reactive calc `selected_country_data` (app.py lines 334-338):
filter the table by boolean mask on the name column. -/
def selected_country_data (df : List Row) (selected_country : String) : List Row :=
  maskSelect df (seriesEqMask df selected_country)

theorem maskSelect_map_eq_filter (df : List Row) (p : Row → Bool) :
    maskSelect df (df.map p) = df.filter p := by
  induction df with
  | nil => rfl
  | cons r rs ih =>
    by_cases hb : p r <;> simp [maskSelect, List.filter, hb, ih]

/-- C6: the row filter returns exactly the rows whose region-identifier
column equals the selected name by exact string comparison, in order;
membership in the result is equivalent to membership in the table with
that exact name; and when no row matches the result is empty rather than
an error. -/
theorem selected_country_data_exact (df : List Row) (selected_country : String) :
    selected_country_data df selected_country =
      df.filter (fun r => decide (r.UC_NM_MN = some selected_country)) ∧
    (∀ r, r ∈ selected_country_data df selected_country ↔
      r ∈ df ∧ r.UC_NM_MN = some selected_country) ∧
    ((∀ r ∈ df, r.UC_NM_MN ≠ some selected_country) →
      selected_country_data df selected_country = []) := by
  have hfil := maskSelect_map_eq_filter df
    (fun r => decide (r.UC_NM_MN = some selected_country))
  refine ⟨hfil, fun r => ?_, fun hnone => ?_⟩
  · rw [show selected_country_data df selected_country =
        df.filter (fun r => decide (r.UC_NM_MN = some selected_country)) from hfil]
    simp [List.mem_filter]
  · rw [show selected_country_data df selected_country =
        df.filter (fun r => decide (r.UC_NM_MN = some selected_country)) from hfil]
    rw [List.filter_eq_nil_iff]
    intro r hr
    simpa using hnone r hr

/-- The single Karlsruhe row of the tabular dataset, with the values
used in the examples below. -/
def karlsruheRow : Row :=
  { UC_NM_MN := some "Karlsruhe [DEU]",
    DeltaT_Winter_Day_mean := 1,
    DeltaT_Winter_Night_mean := 2,
    DeltaT_Spring_Day_mean := 3,
    DeltaT_Spring_Night_mean := 4,
    DeltaT_Summer_Day_mean := 5,
    DeltaT_Summer_Night_mean := 6,
    DeltaT_Fall_Day_mean := 7,
    DeltaT_Fall_Night_mean := 8 }

/-- Witness for C6 at a concrete table: no row of the one-row table is
named "Atlantis", and the filter returns the empty result. -/
theorem selected_country_data_exact_witness :
    (∀ r ∈ [karlsruheRow], r.UC_NM_MN ≠ some "Atlantis") ∧
    selected_country_data [karlsruheRow] "Atlantis" = [] :=
  ⟨by decide, (selected_country_data_exact [karlsruheRow] "Atlantis").2.2 (by decide)⟩

/-- The four seasons in the fixed order of app.py line 344. -/
def seasons : List String := ["Winter", "Spring", "Summer", "Fall"]

/-- The value of column `DeltaT_{s}_Day_mean` of a row (the column names
built on app.py line 345). -/
def dayVal (r : Row) (s : String) : ℚ :=
  if s = "Winter" then r.DeltaT_Winter_Day_mean
  else if s = "Spring" then r.DeltaT_Spring_Day_mean
  else if s = "Summer" then r.DeltaT_Summer_Day_mean
  else r.DeltaT_Fall_Day_mean

/-- The value of column `DeltaT_{s}_Night_mean` of a row (the column
names built on app.py line 346). -/
def nightVal (r : Row) (s : String) : ℚ :=
  if s = "Winter" then r.DeltaT_Winter_Night_mean
  else if s = "Spring" then r.DeltaT_Spring_Night_mean
  else if s = "Summer" then r.DeltaT_Summer_Night_mean
  else r.DeltaT_Fall_Night_mean

/-- `df[day_cols].values.flatten()` (app.py line 348): row-major
flattening — for each row in order, its four day columns in season
order. -/
def day_values (df : List Row) : List ℚ :=
  (df.map (fun r => seasons.map (dayVal r))).flatten

/-- `df[night_cols].values.flatten()` (app.py line 349). -/
def night_values (df : List Row) : List ℚ :=
  (df.map (fun r => seasons.map (nightVal r))).flatten

/-- The rendered scatter chart: the plotted (day, night) points, the
season text labels with their anchor positions, the axis labels, the
title, and the zero-reference lines drawn on each axis. -/
structure Chart where
  points : List (ℚ × ℚ)
  labels : List (ℚ × ℚ × String)
  xlabel : String
  ylabel : String
  title : String
  hlines : List ℚ
  vlines : List ℚ
deriving DecidableEq, Repr

/-- One iteration of the labelling loop (app.py lines 354-355):
`ax.text(day_values[i] + 0.1, night_values[i], season, ...)`.  `none`
models the IndexError Python raises when index `i` is out of range of
the flattened arrays. -/
def seasonText (dv nv : List ℚ) (i : Nat) : Option (ℚ × ℚ × String) :=
  match dv[i]?, nv[i]?, seasons[i]? with
  | some d, some n, some s => some (d + 1 / 10, n, s)
  | _, _, _ => none

/-- The render function `scatterchart` (app.py lines 340-363): flatten
the day and night columns of the filtered rows, scatter them against
each other, label the first four points with the season names, set the
axis labels and the title, and draw a zero line on each axis.  The
result is `none` when the labelling loop raises an IndexError. -/
def scatterchart (df : List Row) (country : String) : Option Chart :=
  let dv := day_values df
  let nv := night_values df
  match (List.range seasons.length).mapM (seasonText dv nv) with
  | none => none
  | some ls =>
    some
      { points := dv.zip nv,
        labels := ls,
        xlabel := "ΔT (Day) °C",
        ylabel := "ΔT (Night) °C",
        title := "ΔT: Day vs Night (" ++ country ++ ")",
        hlines := [0],
        vlines := [0] }

/-- C3 is refuted on the code: with zero matching rows the flattened
day/night arrays are empty, and the labelling loop raises an IndexError
at `day_values[0]` (modelled by `none`) instead of rendering a blank
chart.  Shown end to end: filtering the table for a name it does not
contain and rendering the chart on the empty result fails. -/
theorem scatterchart_empty_input_raises :
    scatterchart (selected_country_data [karlsruheRow] "Atlantis") "Atlantis" = none := by
  decide

/-- C7: for a selection matching exactly one row, the chart plots four
points in the fixed season order Winter, Spring, Summer, Fall, each
pairing that season's day value (x axis) with its night value (y axis);
each point carries its season label; the axes are labelled
"ΔT (Day) °C" and "ΔT (Night) °C"; and one zero-reference line is drawn
on each axis. -/
theorem scatterchart_single_row (r : Row) (country : String) :
    scatterchart [r] country =
      some
        { points :=
            [(r.DeltaT_Winter_Day_mean, r.DeltaT_Winter_Night_mean),
             (r.DeltaT_Spring_Day_mean, r.DeltaT_Spring_Night_mean),
             (r.DeltaT_Summer_Day_mean, r.DeltaT_Summer_Night_mean),
             (r.DeltaT_Fall_Day_mean, r.DeltaT_Fall_Night_mean)],
          labels :=
            [(r.DeltaT_Winter_Day_mean + 1 / 10, r.DeltaT_Winter_Night_mean, "Winter"),
             (r.DeltaT_Spring_Day_mean + 1 / 10, r.DeltaT_Spring_Night_mean, "Spring"),
             (r.DeltaT_Summer_Day_mean + 1 / 10, r.DeltaT_Summer_Night_mean, "Summer"),
             (r.DeltaT_Fall_Day_mean + 1 / 10, r.DeltaT_Fall_Night_mean, "Fall")],
          xlabel := "ΔT (Day) °C",
          ylabel := "ΔT (Night) °C",
          title := "ΔT: Day vs Night (" ++ country ++ ")",
          hlines := [0],
          vlines := [0] } := by
  rfl

/-- The eight dropdown variables with their display labels (app.py
lines 18-27), in insertion order. -/
def variable_labels : List (String × String) :=
  [("DeltaT_Winter_Day_mean", "Winter (Day)"),
   ("DeltaT_Winter_Night_mean", "Winter (Night)"),
   ("DeltaT_Spring_Day_mean", "Spring (Day)"),
   ("DeltaT_Spring_Night_mean", "Spring (Night)"),
   ("DeltaT_Summer_Day_mean", "Summer (Day)"),
   ("DeltaT_Summer_Night_mean", "Summer (Night)"),
   ("DeltaT_Fall_Day_mean", "Fall (Day)"),
   ("DeltaT_Fall_Night_mean", "Fall (Night)")]

/-- `available_countries` (app.py line 15):
`sorted(delta_df["UC_NM_MN"].dropna().unique())` — drop NaN cells of the
name column, keep one occurrence of each name, sort ascending. -/
def available_countries (df : List Row) : List String :=
  (df.filterMap (fun r => r.UC_NM_MN)).toFinset.sort (fun a b => a ≤ b)

/-- A dropdown as built by `ui.input_select`: element id, label, option
values, and the initially selected value. -/
structure SelectInput where
  id : String
  label : String
  choices : List String
  selected : String
deriving DecidableEq, Repr

/-- The two dropdowns of `app_ui` (app.py lines 53-81): the variable
select of the map tab (line 59) and the country select of the chart tab
(line 73). -/
structure AppUI where
  variable_select : SelectInput
  country_select : SelectInput
deriving DecidableEq, Repr

/-- The static UI layout `app_ui`, as a function of the country list it
is built from (in the source, `available_countries`). -/
def app_ui (countries : List String) : AppUI :=
  { variable_select :=
      { id := "selected_variable",
        label := "Choose certain season to show the map:",
        choices := variable_labels.map Prod.fst,
        selected := "DeltaT_Summer_Night_mean" },
    country_select :=
      { id := "country",
        label := "Select a country/urban area:",
        choices := countries,
        selected := "Karlsruhe [DEU]" } }

/-- C9: the initial selection state: the variable dropdown of the map
view starts on "DeltaT_Summer_Night_mean" — one of the eight fixed
variable names — and the region dropdown of the chart view starts on
"Karlsruhe [DEU]". -/
theorem app_ui_default_selection (df : List Row) :
    (app_ui (available_countries df)).variable_select.selected =
      "DeltaT_Summer_Night_mean" ∧
    "DeltaT_Summer_Night_mean" ∈
      (app_ui (available_countries df)).variable_select.choices ∧
    (app_ui (available_countries df)).country_select.selected = "Karlsruhe [DEU]" := by
  refine ⟨rfl, ?_, rfl⟩
  show "DeltaT_Summer_Night_mean" ∈ variable_labels.map Prod.fst
  decide

/-- C8: the options of the region-name dropdown on the chart view are
`available_countries`: exactly the distinct region names present in the
tabular dataset, in ascending order and without duplicates. -/
theorem available_countries_sorted_distinct (df : List Row) :
    (app_ui (available_countries df)).country_select.choices =
      available_countries df ∧
    List.Sorted (fun a b : String => a ≤ b) (available_countries df) ∧
    (available_countries df).Nodup ∧
    ∀ a : String,
      a ∈ available_countries df ↔ some a ∈ df.map (fun r => r.UC_NM_MN) := by
  refine ⟨rfl, Finset.sort_sorted _ _, Finset.sort_nodup _ _, fun a => ?_⟩
  rw [available_countries, Finset.mem_sort]
  simp [List.mem_filterMap, List.mem_map]
